import Mathlib

/-!
Verification development for the orchestration shell of the `tgt` terminal
application (file `src/tui.rs`, with `src/components/status_bar.rs` and
`src/configs/custom/app_custom.rs`).

The shell owns a registry of components keyed by identity, routes raw input
events to the `CoreWindow` component, broadcasts actions to every component
with a try-fold merging policy, tracks the focused identity, and computes a
three-region vertical layout from the terminal area and configuration flags.

Modelling conventions:
* Rust machine integers (`u16` of `ratatui::layout::Rect`) are modelled as
  `Nat`; no arithmetic performed by the shell can overflow `u16` ranges for
  the inputs considered, and the layout arithmetic uses truncated
  subtraction exactly where the layout solver would clamp.
* `io::Result` / fallible component calls are modelled with `Except`.
* A `&mut self` method is modelled as a function returning the new state
  together with its result, so state mutations made before a failure
  survive the failure — exactly as in Rust.
* The `HashMap<ComponentName, Box<dyn Component>>` registry is modelled as
  an association list: the list order is the map's iteration order, which
  in Rust is an arbitrary but fixed function of the map's internal state.
  Making the order part of the state is the honest shallow embedding of
  `HashMap::iter_mut`.
* Trait objects (`Box<dyn Component>`) are modelled generically: a
  component state type `σ` together with a `ComponentSpec σ` bundling the
  trait methods. Theorems quantify over both, so they hold for every
  component behaviour; concrete instances are used for evaluation.
-/

namespace Tgt

/-- Modelled from the spec: an opaque I/O error value (`std::io::Error`),
carried by failing component updates. Only its identity matters to the
shell, which propagates it unchanged. -/
structure IOError where
  code : Nat
deriving DecidableEq, Repr

/-- Modelled from the spec: an opaque application error value (`AppError`),
produced by `handle_events` and `draw`. The shell propagates it unchanged. -/
structure AppError where
  code : Nat
deriving DecidableEq, Repr

/-- Modelled from the spec: the component identity enum
(`enums/component_name.rs`, not under `src/`). The three registered
identities are `TitleBar`, `CoreWindow` and `StatusBar` (`Tui::new`,
`src/tui.rs` lines 52-80). The doc comment of `Tui::focused`
(`src/tui.rs` lines 31-34) states that the focus names a component inside
the `CoreWindow`, so identities beyond the three registered ones exist;
they are modelled here as the `CoreWindow`-internal regions. -/
inductive ComponentName where
  | TitleBar
  | CoreWindow
  | StatusBar
  | ChatList
  | Chat
  | Prompt
deriving DecidableEq, Repr

/-- `ratatui::layout::Rect`: a rectangle with `u16` fields, modelled over
`Nat`. -/
structure Rect where
  x : Nat
  y : Nat
  width : Nat
  height : Nat
deriving DecidableEq, Repr

/-- Modelled from the spec: the event enum (`enums/event.rs`, not under
`src/`). `src/components/status_bar.rs` uses `Event::Unknown` and
`Event::Key(key, modifiers)`; the spec (§6) adds a resize event. Key codes
and modifier sets are opaque and modelled as numbers. -/
inductive Event where
  | Unknown
  | Key (code : Nat) (modifiers : Nat)
  | Resize (width : Nat) (height : Nat)
deriving DecidableEq, Repr

/-- Modelled from the spec: the action enum (`enums/action.rs`, not under
`src/`). The shell-level actions (§6) are `FocusComponent`,
`UnfocusComponent`, `UpdateArea` and `Key`; `Custom` stands for the open
tag of component-specific actions. -/
inductive Action where
  | FocusComponent (name : ComponentName)
  | UnfocusComponent
  | UpdateArea (area : Rect)
  | Key (code : Nat) (modifiers : Nat)
  | Custom (tag : Nat)
deriving DecidableEq, Repr

/-- The application configuration (`src/configs/custom/app_custom.rs`),
restricted to the fields `Tui::draw` reads: the chrome flags
`show_title_bar` and `show_status_bar` (`src/tui.rs` lines 177, 187).
The other fields of `AppConfig` visible in `src/` (`mouse_support`,
`paste_support` and the floating-point `frame_rate`) are never read by the
shell and are omitted; the two flags are declared in configuration code
missing from `src/` but are the spec's `show_header` / `show_footer`. -/
structure AppConfig where
  show_title_bar : Bool
  show_status_bar : Bool
deriving DecidableEq, Repr

/-- Modelled from the spec: `SMALL_AREA_WIDTH` (`components/mod.rs`, not
under `src/`), the width threshold below which the body renders condensed.
The spec's end-to-end scenario (§8) assumes the value 60. -/
def SMALL_AREA_WIDTH : Nat := 60

/-- Modelled from the spec: `SMALL_AREA_HEIGHT` (`components/mod.rs`, not
under `src/`), the guaranteed body height. The spec's scenario (§8)
forces `5 ≤ SMALL_AREA_HEIGHT ≤ 24`; the value 10 realises it. The layout
theorems only use the shape of the arithmetic, not this value. -/
def SMALL_AREA_HEIGHT : Nat := 10

/-- The trait-object interface of `Box<dyn Component>` as used by `Tui`:
each method takes the component state and returns the possibly-mutated
state together with its result. `update` models
`fn update(&mut self, action: Action) -> io::Result<Option<Action>>`;
`handle_events` models
`fn handle_events(&mut self, event: Option<Event>) -> Result<Option<Action>, AppError>`;
`with_small_area` models `fn with_small_area(&mut self, small: bool)`;
`draw` models `fn draw(&mut self, frame, area) -> Result<(), AppError>`,
which per the spec (§4.1) performs no state mutation, so it returns only
its result. -/
structure ComponentSpec (σ : Type) where
  update : Action → σ → σ × Except IOError (Option Action)
  handle_events : Option Event → σ → σ × Except AppError (Option Action)
  with_small_area : Bool → σ → σ
  draw : Rect → σ → Except AppError Unit

/-- The registry: the `HashMap<ComponentName, Box<dyn Component>>` of
`Tui`, modelled as an association list in iteration order. -/
abbrev Registry (σ : Type) : Type := List (ComponentName × σ)

/-- `HashMap::get` / `get_mut` lookup: first entry with the given key. -/
def lookupComp {σ : Type} : Registry σ → ComponentName → Option σ
  | [], _ => none
  | (k, v) :: rest, n => if k = n then some v else lookupComp rest n

/-- Write back the state of the component under a key after a `get_mut`
mutation: replaces the value at the first entry with the given key. -/
def setComp {σ : Type} : Registry σ → ComponentName → σ → Registry σ
  | [], _, _ => []
  | (k, v) :: rest, n, s =>
    if k = n then (k, s) :: rest else (k, v) :: setComp rest n s

/-- The `Tui` struct (`src/tui.rs` lines 21-35), restricted to the fields
its claim-relevant methods read: the component registry, the focused
identity, and the application configuration. The `action_tx` channel
handle and the dead-code `keymap_config` are never read by `update`,
`handle_events` or `draw` and are omitted. -/
structure Tui (σ : Type) where
  components : Registry σ
  app_config : AppConfig
  focused : Option ComponentName

/-- Replace the shell's component registry, keeping the other fields:
the effect of mutating through a `get_mut` borrow. -/
def Tui.setComponents {σ : Type} (t : Tui σ) (l : Registry σ) : Tui σ :=
  { t with components := l }

/-- The body of `Tui::update`'s `try_fold` (`src/tui.rs` lines 141-149):
visit the components in registry order threading the accumulator; a reply
`Ok(Some(a))` overwrites the accumulator, `Ok(None)` keeps it, and
`Err(e)` stops the fold with that error, leaving the remaining components
unvisited. Returns the registry with the visited components' mutations
applied, together with the fold's result. -/
def tryFoldUpdate {σ : Type} (C : ComponentSpec σ) (action : Action) :
    Registry σ → Option Action → Registry σ × Except IOError (Option Action)
  | [], acc => ([], Except.ok acc)
  | (n, s) :: rest, acc =>
    match C.update action s with
    | (s1, Except.ok reply) =>
      let acc1 := match reply with
        | some a => some a
        | none => acc
      let (rest1, res) := tryFoldUpdate C action rest acc1
      ((n, s1) :: rest1, res)
    | (s1, Except.error e) => ((n, s1) :: rest, Except.error e)

/-- `Tui::update` (`src/tui.rs` lines 128-150): first mutate the focus
state on `FocusComponent` / `UnfocusComponent`, then broadcast the action
to every component via the try-fold. -/
def Tui.update {σ : Type} (C : ComponentSpec σ) (t : Tui σ) (action : Action) :
    Tui σ × Except IOError (Option Action) :=
  let t1 : Tui σ :=
    match action with
    | Action.FocusComponent name => { t with focused := some name }
    | Action.UnfocusComponent => { t with focused := none }
    | _ => t
  let (comps, res) := tryFoldUpdate C action t1.components none
  ({ t1 with components := comps }, res)

/-- `Tui::handle_events` (`src/tui.rs` lines 110-118): look up the
`CoreWindow` component (`unwrap`, modelled as `none` on the panic path)
and forward the event to its `handle_events`, returning its result. -/
def Tui.handle_events {σ : Type} (C : ComponentSpec σ) (t : Tui σ)
    (event : Option Event) :
    Option (Tui σ × Except AppError (Option Action)) :=
  match lookupComp t.components ComponentName.CoreWindow with
  | none => none
  | some s =>
    let (s1, res) := C.handle_events event s
    some ({ t with
            components := setComp t.components ComponentName.CoreWindow s1 },
          res)

/-- The heights of the three vertical segments produced by
`ratatui::layout::Layout::new(Vertical, [Length a, Min m, Length b]).split`
on an area of height `h`, in the regimes reachable from `Tui::draw`.
The split always covers the area exactly (legacy flex), so the three
heights sum to `h`. `Tui::draw` only ever calls this with
`a + m + b ≤ h` (both lengths are 3 only when `h > m + 5`, i.e.
`h ≥ m + 6`) or with `a = b = 0` (see `mainLayout_feasible`); in the first
regime the solver grants each `Length` exactly and leaves `h - a - b ≥ m`
to the `Min` segment, in the second the single `Min` segment takes the
whole area. In both regimes the result is `(a, h - (a + b), b)` with
truncated subtraction. -/
def splitVertical3 (a m b h : Nat) : Nat × Nat × Nat :=
  let _ := m
  (a, h - (a + b), b)

/-- The chrome-height expression of `Tui::draw` (`src/tui.rs` lines
177-185 for the title bar, 187-195 for the status bar): 0 when the flag
disables the bar or the area is short, else 3 rows. -/
def chromeHeight (flag : Bool) (h : Nat) : Nat :=
  if flag then (if h > SMALL_AREA_HEIGHT + 5 then 3 else 0) else 0

/-- The vertical layout computed by `Tui::draw` (`src/tui.rs` lines
174-198): header, body and footer rectangles obtained by splitting the
area with `[Length headerH, Min SMALL_AREA_HEIGHT, Length footerH]`.
This expression reads only the configuration flags and the area. -/
def Tui.mainLayout (cfg : AppConfig) (area : Rect) : Rect × Rect × Rect :=
  let (a, m, b) :=
    splitVertical3 (chromeHeight cfg.show_title_bar area.height)
      SMALL_AREA_HEIGHT (chromeHeight cfg.show_status_bar area.height)
      area.height
  (⟨area.x, area.y, area.width, a⟩,
   ⟨area.x, area.y + a, area.width, m⟩,
   ⟨area.x, area.y + a + m, area.width, b⟩)

/-- `Tui::draw` (`src/tui.rs` lines 159-234), step by step:
1. look up the `StatusBar` (`unwrap`: `none` on the panic path) and call
   `update(UpdateArea(area))`, propagating an `Err` via `?` after the
   component's mutation is applied (the follow-up action is discarded);
2. look up the `CoreWindow` (`unwrap`) and set its small-area flag to
   `area.width < SMALL_AREA_WIDTH`;
3. compute the main layout;
4. draw `TitleBar`, `CoreWindow`, `StatusBar` in that order into the
   three regions, propagating the first drawing error.
The result is `none` on a missing-component panic path, otherwise the
mutated shell state together with either the propagated error or the
computed layout. The update error of step 1 is an `IOError` lifted into
`AppError` by `From<io::Error> for AppError`; the lift is modelled as
keeping the numeric code. -/
def Tui.draw {σ : Type} (C : ComponentSpec σ) (t : Tui σ) (area : Rect) :
    Option (Tui σ × Except AppError (Rect × Rect × Rect)) :=
  match lookupComp t.components ComponentName.StatusBar with
  | none => none
  | some sb =>
    let (sb1, r1) := C.update (Action.UpdateArea area) sb
    let t1 : Tui σ :=
      { t with components := setComp t.components ComponentName.StatusBar sb1 }
    match r1 with
    | Except.error e => some (t1, Except.error ⟨e.code⟩)
    | Except.ok _ =>
      match lookupComp t1.components ComponentName.CoreWindow with
      | none => none
      | some cw =>
        let cw1 : σ :=
          C.with_small_area (decide (area.width < SMALL_AREA_WIDTH)) cw
        let t2 : Tui σ :=
          { t1 with
            components := setComp t1.components ComponentName.CoreWindow cw1 }
        let (hdr, body, ftr) := Tui.mainLayout t.app_config area
        match lookupComp t2.components ComponentName.TitleBar with
        | none => none
        | some tb =>
          match C.draw hdr tb with
          | Except.error e => some (t2, Except.error e)
          | Except.ok _ =>
            match lookupComp t2.components ComponentName.CoreWindow with
            | none => none
            | some cw2 =>
              match C.draw body cw2 with
              | Except.error e => some (t2, Except.error e)
              | Except.ok _ =>
                match lookupComp t2.components ComponentName.StatusBar with
                | none => none
                | some sb2 =>
                  match C.draw ftr sb2 with
                  | Except.error e => some (t2, Except.error e)
                  | Except.ok _ => some (t2, Except.ok (hdr, body, ftr))

/-- The `StatusBar` component state
(`src/components/status_bar.rs` lines 22-36), without the opaque channel
handle `command_tx` (never read by any specified operation). -/
structure StatusBar where
  name : String
  small_area : Bool
  focused : Bool
  terminal_area : Rect
  last_key : Event
deriving DecidableEq, Repr

/-- `StatusBar::new` (`src/components/status_bar.rs` lines 49-65). -/
def StatusBar.new : StatusBar :=
  { name := ""
    small_area := false
    focused := false
    terminal_area := ⟨0, 0, 0, 0⟩
    last_key := Event.Unknown }

/-- `StatusBar`'s `update` (`src/components/status_bar.rs` lines
113-123): record the area on `UpdateArea`, the key on `Key`, ignore the
rest. In `src/` this method returns unit, so it never fails and never
produces a follow-up action. -/
def StatusBar.update (action : Action) (sb : StatusBar) :
    StatusBar × Except IOError (Option Action) :=
  match action with
  | Action.UpdateArea area =>
    ({ sb with terminal_area := area }, Except.ok none)
  | Action.Key k m =>
    ({ sb with last_key := Event.Key k m }, Except.ok none)
  | _ => (sb, Except.ok none)

/-- `StatusBar`'s `with_small_area`
(`src/components/status_bar.rs` lines 101-103). -/
def StatusBar.with_small_area (b : Bool) (sb : StatusBar) : StatusBar :=
  { sb with small_area := b }

/-- Modelled from the spec: the `TitleBar` component state
(`components/title_bar.rs`, not under `src/`): a named chrome region with
the optional small-area capability (§4.1). -/
structure TitleBar where
  name : String
  small_area : Bool
deriving DecidableEq, Repr

/-- Modelled from the spec: the `CoreWindow` component state
(`components/core_window.rs`, not under `src/`): the interactive body,
carrying a name and the small-area flag that `Tui::draw` propagates
(§3, "Small-Area Flag"; §4.1 `with_small_area`). -/
structure CoreWindow where
  name : String
  small_area : Bool
deriving DecidableEq, Repr

/-- The state of one registered component: the closed sum of the three
region states held by the registry. -/
inductive CompState where
  | titleBar (tb : TitleBar)
  | coreWindow (cw : CoreWindow)
  | statusBar (sb : StatusBar)
deriving DecidableEq, Repr

/-- The small-area flag of a component state, when the component has the
capability. -/
def CompState.smallAreaFlag : CompState → Bool
  | CompState.titleBar tb => tb.small_area
  | CompState.coreWindow cw => cw.small_area
  | CompState.statusBar sb => sb.small_area

/-- The concrete component behaviour of the three registered components:
`StatusBar`'s methods from `src/components/status_bar.rs`; `TitleBar` and
`CoreWindow` are modelled from the spec (their sources are not under
`src/`): their `update` accepts every action with no follow-up (§4.1:
update must be a no-op for unrecognized actions), `with_small_area` sets
the flag (§4.1), `handle_events` produces no action, and `draw` is pure
rendering that always succeeds (§4.1: no state mutation). -/
def concreteSpec : ComponentSpec CompState :=
  { update := fun a s =>
      match s with
      | CompState.statusBar sb =>
        let (sb1, r) := StatusBar.update a sb
        (CompState.statusBar sb1, r)
      | s => (s, Except.ok none)
    handle_events := fun _ s => (s, Except.ok none)
    with_small_area := fun b s =>
      match s with
      | CompState.titleBar tb => CompState.titleBar { tb with small_area := b }
      | CompState.coreWindow cw =>
        CompState.coreWindow { cw with small_area := b }
      | CompState.statusBar sb =>
        CompState.statusBar (StatusBar.with_small_area b sb)
    draw := fun _ _ => Except.ok () }

/-- The registry built by `Tui::new` (`src/tui.rs` lines 52-80):
`TitleBar`, `CoreWindow`, `StatusBar`, in insertion order. -/
def Tui.newRegistry : Registry CompState :=
  [(ComponentName.TitleBar, CompState.titleBar ⟨"Tgt", false⟩),
   (ComponentName.CoreWindow, CompState.coreWindow ⟨"CoreWindow", false⟩),
   (ComponentName.StatusBar,
    CompState.statusBar { StatusBar.new with name := "Status Bar" })]

/-- `Tui::new` (`src/tui.rs` lines 52-80) at the point of view of the
modelled fields: the registry above, no focus. -/
def Tui.new (cfg : AppConfig) : Tui CompState :=
  { components := Tui.newRegistry
    app_config := cfg
    focused := none }

/-- The registry after every component has observed the action: each
component's state is replaced by the state its `update` returns. -/
def updatedRegistry {σ : Type} (C : ComponentSpec σ) (a : Action)
    (l : Registry σ) : Registry σ :=
  l.map (fun p => (p.1, (C.update a p.2).1))

/-- The accumulator after folding the components' replies from `acc`:
a reply carrying an action overwrites, a reply of no action keeps the
accumulator (erroring replies cannot occur where this is used). -/
def accFold {σ : Type} (C : ComponentSpec σ) (a : Action) (l : Registry σ)
    (acc : Option Action) : Option Action :=
  l.foldl (fun acc1 p =>
    match (C.update a p.2).2 with
    | Except.ok (some x) => some x
    | _ => acc1) acc

/-- The follow-up action of the last-visited component that produced one,
`none` if no component produced one. -/
def lastReply {σ : Type} (C : ComponentSpec σ) (a : Action)
    (l : Registry σ) : Option Action :=
  accFold C a l none

/-- The names of the components whose `update` is called during the
try-fold, in visiting order: all of them in registry order when none
errors, else the prefix up to and including the first erroring one. -/
def visitNames {σ : Type} (C : ComponentSpec σ) (a : Action) :
    Registry σ → List ComponentName
  | [] => []
  | (n, s) :: rest =>
    match (C.update a s).2 with
    | Except.ok _ => n :: visitNames C a rest
    | Except.error _ => [n]

/-- A family of test components over `σ := Nat`, used only to evaluate the
routing theorems at concrete registries: a component in state `s < 99`
increments its state and replies with a follow-up action exactly when `s`
is odd; a component in state `s ≥ 99` fails with I/O error code `s`. -/
def toySpec : ComponentSpec Nat :=
  { update := fun _ s =>
      if 99 ≤ s then (s, Except.error ⟨s⟩)
      else (s + 1,
        Except.ok (if s % 2 = 1 then some (Action.Custom s) else none))
    handle_events := fun _ s => (s + 10, Except.ok (some (Action.Custom 42)))
    with_small_area := fun _ s => s
    draw := fun _ _ => Except.ok () }

/-- A concrete shell state over the test components: three healthy
components in registry order. -/
def toyTui : Tui Nat :=
  { components :=
      [(ComponentName.TitleBar, 1), (ComponentName.CoreWindow, 2),
       (ComponentName.StatusBar, 3)]
    app_config := ⟨true, true⟩
    focused := none }

/-- `toyTui` with a different focus, for the determinism claim. -/
def toyTuiFocused : Tui Nat :=
  { toyTui with focused := some ComponentName.Chat }

/-- A concrete shell state whose second component fails its update. -/
def toyTuiErr : Tui Nat :=
  { components :=
      [(ComponentName.TitleBar, 1), (ComponentName.CoreWindow, 99),
       (ComponentName.StatusBar, 3)]
    app_config := ⟨true, true⟩
    focused := none }

/-- A concrete shell state whose first component fails its update. -/
def toyTuiAllErr : Tui Nat :=
  { components := [(ComponentName.TitleBar, 99)]
    app_config := ⟨true, true⟩
    focused := some ComponentName.Chat }

theorem tryFoldUpdate_ok {σ : Type} (C : ComponentSpec σ) (a : Action) :
    ∀ (l : Registry σ) (acc : Option Action),
      (∀ p ∈ l, ((C.update a p.2).2).isOk = true) →
      tryFoldUpdate C a l acc =
        (updatedRegistry C a l, Except.ok (accFold C a l acc)) := by
  intro l
  induction l with
  | nil =>
    intro acc _
    simp [tryFoldUpdate, updatedRegistry, accFold]
  | cons p rest ih =>
    intro acc h
    obtain ⟨n, s⟩ := p
    have hp : ((C.update a (n, s).2).2).isOk = true := h (n, s) (by simp)
    rcases hu : C.update a s with ⟨s1, r⟩
    cases r with
    | error e =>
      rw [hu] at hp
      simp [Except.isOk, Except.toBool] at hp
    | ok reply =>
      have hrest : ∀ p ∈ rest, ((C.update a p.2).2).isOk = true := by
        intro q hq
        exact h q (List.mem_cons_of_mem _ hq)
      cases reply with
      | none =>
        have hacc : accFold C a ((n, s) :: rest) acc = accFold C a rest acc := by
          simp [accFold, hu]
        rw [hacc]
        simp [tryFoldUpdate, hu, ih acc hrest, updatedRegistry]
      | some x =>
        have hacc :
            accFold C a ((n, s) :: rest) acc = accFold C a rest (some x) := by
          simp [accFold, hu]
        rw [hacc]
        simp [tryFoldUpdate, hu, ih (some x) hrest, updatedRegistry]

theorem tryFoldUpdate_err {σ : Type} (C : ComponentSpec σ) (a : Action)
    (n : ComponentName) (s : σ) (e : IOError) :
    ∀ (l1 l2 : Registry σ) (acc : Option Action),
      (∀ p ∈ l1, ((C.update a p.2).2).isOk = true) →
      (C.update a s).2 = Except.error e →
      tryFoldUpdate C a (l1 ++ (n, s) :: l2) acc =
        (updatedRegistry C a l1 ++ (n, (C.update a s).1) :: l2,
         Except.error e) := by
  intro l1
  induction l1 with
  | nil =>
    intro l2 acc _ he
    rcases hu : C.update a s with ⟨s1, r⟩
    rw [hu] at he
    simp at he
    subst he
    simp [tryFoldUpdate, hu, updatedRegistry]
  | cons p rest ih =>
    intro l2 acc h he
    obtain ⟨n1, s1⟩ := p
    have hp : ((C.update a (n1, s1).2).2).isOk = true := h (n1, s1) (by simp)
    rcases hu : C.update a s1 with ⟨s2, r⟩
    cases r with
    | error e1 =>
      rw [hu] at hp
      simp [Except.isOk, Except.toBool] at hp
    | ok reply =>
      have hrest : ∀ p ∈ rest, ((C.update a p.2).2).isOk = true := by
        intro q hq
        exact h q (List.mem_cons_of_mem _ hq)
      cases reply with
      | none =>
        simp [tryFoldUpdate, hu, ih l2 acc hrest he, updatedRegistry]
      | some x =>
        simp [tryFoldUpdate, hu, ih l2 (some x) hrest he, updatedRegistry]

theorem lookup_setComp_self {σ : Type} (n : ComponentName) (s : σ) :
    ∀ l : Registry σ, (lookupComp l n).isSome = true →
      lookupComp (setComp l n s) n = some s := by
  intro l
  induction l with
  | nil => simp [lookupComp]
  | cons p rest ih =>
    obtain ⟨k, v⟩ := p
    by_cases hk : k = n
    · subst hk
      simp [lookupComp, setComp]
    · intro h
      rw [lookupComp, if_neg hk] at h
      simp [lookupComp, setComp, hk, ih h]

theorem lookup_setComp_other {σ : Type} (n m : ComponentName) (s : σ)
    (hnm : n ≠ m) :
    ∀ l : Registry σ, lookupComp (setComp l n s) m = lookupComp l m := by
  intro l
  induction l with
  | nil => simp [lookupComp, setComp]
  | cons p rest ih =>
    obtain ⟨k, v⟩ := p
    by_cases hk : k = n
    · subst hk
      simp [lookupComp, setComp, hnm, ih]
    · simp [lookupComp, setComp, hk, ih]

/-- C1: for every action and registry state, when every component's
update succeeds, `Tui::update` calls `update` with the action on every
registered component (each state is replaced by its updated state, none
skipped) and returns the fold of the replies started from the empty
accumulator, where a reply of no action keeps the accumulator and a reply
carrying an action overwrites it — the follow-up of the last-visited
producer, `none` if there is none. -/
theorem update_broadcast_fold {σ : Type} (C : ComponentSpec σ) (t : Tui σ)
    (a : Action)
    (h : ∀ p ∈ t.components, ((C.update a p.2).2).isOk = true) :
    (Tui.update C t a).2 = Except.ok (lastReply C a t.components) ∧
    (Tui.update C t a).1.components = updatedRegistry C a t.components := by
  have hfold := tryFoldUpdate_ok C a t.components none h
  cases a <;> simp [Tui.update, hfold, lastReply]

theorem update_broadcast_fold_witness :
    (Tui.update toySpec toyTui (Action.Custom 0)).2 =
      Except.ok (lastReply toySpec (Action.Custom 0) toyTui.components) ∧
    (Tui.update toySpec toyTui (Action.Custom 0)).1.components =
      updatedRegistry toySpec (Action.Custom 0) toyTui.components :=
  update_broadcast_fold toySpec toyTui (Action.Custom 0) (by decide)

/-- C2: broadcast dispatch is deterministic in the registry state: two
shell states with equal registries (the registry sequence is the
iteration order of the component map) are visited in the same order by
`Tui::update` on the same action, return the same follow-up action or
error, and leave equal registries behind. -/
theorem update_deterministic {σ : Type} (C : ComponentSpec σ)
    (t1 t2 : Tui σ) (a : Action) (h : t1.components = t2.components) :
    visitNames C a t1.components = visitNames C a t2.components ∧
    (Tui.update C t1 a).2 = (Tui.update C t2 a).2 ∧
    (Tui.update C t1 a).1.components = (Tui.update C t2 a).1.components := by
  refine ⟨by rw [h], ?_, ?_⟩ <;> cases a <;> simp [Tui.update, h]

theorem update_deterministic_witness :
    visitNames toySpec (Action.Custom 7) toyTui.components =
      visitNames toySpec (Action.Custom 7) toyTuiFocused.components ∧
    (Tui.update toySpec toyTui (Action.Custom 7)).2 =
      (Tui.update toySpec toyTuiFocused (Action.Custom 7)).2 ∧
    (Tui.update toySpec toyTui (Action.Custom 7)).1.components =
      (Tui.update toySpec toyTuiFocused (Action.Custom 7)).1.components :=
  update_deterministic toySpec toyTui toyTuiFocused (Action.Custom 7) rfl

/-- C3, counterexample: on the shell built by `Tui::new`, the identity
`ChatList` is not present in the registry, yet dispatching
`FocusComponent(ChatList)` changes the Focus State from `none` to
`some ChatList` instead of leaving it unchanged. -/
theorem focus_unknown_identity_cex :
    lookupComp (Tui.new ⟨true, true⟩).components ComponentName.ChatList =
      none ∧
    (Tui.new ⟨true, true⟩).focused = none ∧
    (Tui.update concreteSpec (Tui.new ⟨true, true⟩)
        (Action.FocusComponent ComponentName.ChatList)).1.focused =
      some ComponentName.ChatList := by
  refine ⟨rfl, rfl, ?_⟩
  rfl

/-- C3, amended: dispatching `FocusComponent(identity)` sets the Focus
State to that identity unconditionally, for every identity — registered
or not — and every component behaviour; no registry-membership check is
performed before the transition. -/
theorem focus_transition_unconditional {σ : Type} (C : ComponentSpec σ)
    (t : Tui σ) (n : ComponentName) :
    (Tui.update C t (Action.FocusComponent n)).1.focused = some n := by
  rcases hf : tryFoldUpdate C (Action.FocusComponent n) t.components none
    with ⟨comps, res⟩
  simp [Tui.update, hf]

/-- Sanity check of the layout-solver regimes: every call `Tui::draw`
makes to the vertical split has either both `Length` constraints equal to
zero, or the three constraints feasible within the area's height, so the
modelled split `(a, h - (a + b), b)` is the solver's answer. -/
theorem mainLayout_feasible (cfg : AppConfig) (area : Rect) :
    (chromeHeight cfg.show_title_bar area.height = 0 ∧
     chromeHeight cfg.show_status_bar area.height = 0) ∨
    chromeHeight cfg.show_title_bar area.height + SMALL_AREA_HEIGHT +
      chromeHeight cfg.show_status_bar area.height ≤ area.height := by
  rcases cfg with ⟨st, ss⟩
  simp only [chromeHeight, SMALL_AREA_HEIGHT]
  by_cases h : area.height > 10 + 5
  · cases st <;> cases ss <;> simp [h] <;> omega
  · cases st <;> cases ss <;> simp [h]

/-- C4: for every configuration, an area of height
`h ≤ SMALL_AREA_HEIGHT + 5` gets header height 0 and footer height 0
regardless of the chrome flags; for `h > SMALL_AREA_HEIGHT + 5` with both
flags enabled, the layout computed by `Tui::draw` has header height 3,
footer height 3 and body height `h - 6`. -/
theorem mainLayout_heights (cfg : AppConfig) (area : Rect) :
    (area.height ≤ SMALL_AREA_HEIGHT + 5 →
      (Tui.mainLayout cfg area).1.height = 0 ∧
      (Tui.mainLayout cfg area).2.2.height = 0) ∧
    (area.height > SMALL_AREA_HEIGHT + 5 → cfg.show_title_bar = true →
      cfg.show_status_bar = true →
      (Tui.mainLayout cfg area).1.height = 3 ∧
      (Tui.mainLayout cfg area).2.2.height = 3 ∧
      (Tui.mainLayout cfg area).2.1.height = area.height - 6) := by
  rcases cfg with ⟨st, ss⟩
  simp only [Tui.mainLayout, splitVertical3, chromeHeight, SMALL_AREA_HEIGHT]
  constructor
  · intro h
    have hgt : ¬ (area.height > 10 + 5) := by omega
    cases st <;> cases ss <;> simp [hgt]
  · intro h h1 h2
    subst h1
    subst h2
    simp [h]

theorem mainLayout_heights_witness :
    ((Tui.mainLayout ⟨true, true⟩ ⟨0, 0, 40, 10⟩).1.height = 0 ∧
     (Tui.mainLayout ⟨true, true⟩ ⟨0, 0, 40, 10⟩).2.2.height = 0) ∧
    ((Tui.mainLayout ⟨true, true⟩ ⟨0, 0, 100, 30⟩).1.height = 3 ∧
     (Tui.mainLayout ⟨true, true⟩ ⟨0, 0, 100, 30⟩).2.2.height = 3 ∧
     (Tui.mainLayout ⟨true, true⟩ ⟨0, 0, 100, 30⟩).2.1.height = 30 - 6) :=
  ⟨(mainLayout_heights ⟨true, true⟩ ⟨0, 0, 40, 10⟩).1 (by decide),
   (mainLayout_heights ⟨true, true⟩ ⟨0, 0, 100, 30⟩).2 (by decide) rfl rfl⟩

/-- C5, counterexample: on an area of height 0 (with both chrome flags
enabled), the body region computed by `Tui::draw` has height 0, below the
claimed floor `SMALL_AREA_HEIGHT` — a `Min` constraint cannot create
space the area does not have. -/
theorem body_floor_cex :
    ¬ SMALL_AREA_HEIGHT ≤
      (Tui.mainLayout ⟨true, true⟩ ⟨0, 0, 100, 0⟩).2.1.height := by
  decide

/-- C5, amended: for every area and configuration, the body region
computed by `Tui::draw` has height at least
`min SMALL_AREA_HEIGHT area.height`: allocating the header and footer
never shrinks the body below the floor `SMALL_AREA_HEIGHT`, but an area
shorter than the floor yields a body of only the area's height. -/
theorem body_height_floor (cfg : AppConfig) (area : Rect) :
    min SMALL_AREA_HEIGHT area.height ≤
      (Tui.mainLayout cfg area).2.1.height := by
  rcases cfg with ⟨st, ss⟩
  simp only [Tui.mainLayout, splitVertical3, chromeHeight, SMALL_AREA_HEIGHT]
  by_cases h : area.height > 10 + 5
  · cases st <;> cases ss <;> simp [h] <;> omega
  · cases st <;> cases ss <;> simp [h]

/-- C6: on a shell whose registry holds the three components built by
`Tui::new`, `Tui::draw` on an area of width `w` completes its state
mutations and leaves the body subtree's (the `CoreWindow`'s) small-area
flag equal to `w < SMALL_AREA_WIDTH`: true for every `w` below the
threshold and false for every `w` at or above it. -/
theorem draw_small_area_flag (t : Tui CompState) (area : Rect)
    (tb : TitleBar) (cw : CoreWindow) (sb : StatusBar)
    (htb : lookupComp t.components ComponentName.TitleBar =
      some (CompState.titleBar tb))
    (hcw : lookupComp t.components ComponentName.CoreWindow =
      some (CompState.coreWindow cw))
    (hsb : lookupComp t.components ComponentName.StatusBar =
      some (CompState.statusBar sb)) :
    ∃ t2 res, Tui.draw concreteSpec t area = some (t2, res) ∧
      (lookupComp t2.components ComponentName.CoreWindow).map
          CompState.smallAreaFlag =
        some (decide (area.width < SMALL_AREA_WIDTH)) ∧
      ((lookupComp t2.components ComponentName.CoreWindow).map
          CompState.smallAreaFlag = some true ↔
        area.width < SMALL_AREA_WIDTH) := by
  have h1 : lookupComp
      (setComp t.components ComponentName.StatusBar
        (CompState.statusBar { sb with terminal_area := area }))
      ComponentName.CoreWindow = some (CompState.coreWindow cw) :=
    (lookup_setComp_other ComponentName.StatusBar ComponentName.CoreWindow _
      (by decide) t.components).trans hcw
  have h2 : lookupComp
      (setComp
        (setComp t.components ComponentName.StatusBar
          (CompState.statusBar { sb with terminal_area := area }))
        ComponentName.CoreWindow
        (CompState.coreWindow
          { cw with small_area := decide (area.width < SMALL_AREA_WIDTH) }))
      ComponentName.CoreWindow =
      some (CompState.coreWindow
        { cw with small_area := decide (area.width < SMALL_AREA_WIDTH) }) :=
    lookup_setComp_self ComponentName.CoreWindow _ _ (by rw [h1]; rfl)
  have h3 : lookupComp
      (setComp
        (setComp t.components ComponentName.StatusBar
          (CompState.statusBar { sb with terminal_area := area }))
        ComponentName.CoreWindow
        (CompState.coreWindow
          { cw with small_area := decide (area.width < SMALL_AREA_WIDTH) }))
      ComponentName.TitleBar = some (CompState.titleBar tb) := by
    rw [lookup_setComp_other ComponentName.CoreWindow ComponentName.TitleBar _
      (by decide),
      lookup_setComp_other ComponentName.StatusBar ComponentName.TitleBar _
      (by decide)]
    exact htb
  have h4 : lookupComp
      (setComp
        (setComp t.components ComponentName.StatusBar
          (CompState.statusBar { sb with terminal_area := area }))
        ComponentName.CoreWindow
        (CompState.coreWindow
          { cw with small_area := decide (area.width < SMALL_AREA_WIDTH) }))
      ComponentName.StatusBar =
      some (CompState.statusBar { sb with terminal_area := area }) := by
    rw [lookup_setComp_other ComponentName.CoreWindow ComponentName.StatusBar _
      (by decide)]
    exact lookup_setComp_self ComponentName.StatusBar _ _ (by rw [hsb]; rfl)
  refine ⟨Tui.setComponents t
      (setComp
        (setComp t.components ComponentName.StatusBar
          (CompState.statusBar { sb with terminal_area := area }))
        ComponentName.CoreWindow
        (CompState.coreWindow
          { cw with small_area := decide (area.width < SMALL_AREA_WIDTH) })),
    Except.ok (Tui.mainLayout t.app_config area), ?_, ?_, ?_⟩
  · simp only [Tui.draw, hsb, concreteSpec, StatusBar.update, h1, h2, h3, h4,
      Tui.setComponents, Tui.mainLayout, splitVertical3, chromeHeight]
  · simp [Tui.setComponents, h2, CompState.smallAreaFlag]
  · simp [Tui.setComponents, h2, CompState.smallAreaFlag]

theorem draw_small_area_flag_witness :
    ∃ t2 res,
      Tui.draw concreteSpec (Tui.new ⟨true, true⟩) ⟨0, 0, 40, 10⟩ =
        some (t2, res) ∧
      (lookupComp t2.components ComponentName.CoreWindow).map
          CompState.smallAreaFlag =
        some (decide ((40 : Nat) < SMALL_AREA_WIDTH)) ∧
      ((lookupComp t2.components ComponentName.CoreWindow).map
          CompState.smallAreaFlag = some true ↔
        (40 : Nat) < SMALL_AREA_WIDTH) :=
  draw_small_area_flag (Tui.new ⟨true, true⟩) ⟨0, 0, 40, 10⟩
    ⟨"Tgt", false⟩ ⟨"CoreWindow", false⟩
    { StatusBar.new with name := "Status Bar" } rfl rfl rfl

/-- C7: if the registry decomposes as a prefix of components whose
updates succeed, then a component whose update fails with error `e`, then
a suffix, `Tui::update` returns `Err(e)` and the suffix components keep
their states untouched — they are never called — while the prefix and the
failing component keep the mutations their updates made; no recovery of
the partially folded result is attempted. -/
theorem update_error_aborts {σ : Type} (C : ComponentSpec σ) (t : Tui σ)
    (a : Action) (l1 l2 : Registry σ) (n : ComponentName) (s : σ)
    (e : IOError)
    (hsplit : t.components = l1 ++ (n, s) :: l2)
    (hok : ∀ p ∈ l1, ((C.update a p.2).2).isOk = true)
    (he : (C.update a s).2 = Except.error e) :
    (Tui.update C t a).2 = Except.error e ∧
    (Tui.update C t a).1.components =
      updatedRegistry C a l1 ++ (n, (C.update a s).1) :: l2 := by
  have hfold := tryFoldUpdate_err C a n s e l1 l2 none hok he
  cases a <;> simp [Tui.update, hsplit, hfold]

theorem update_error_aborts_witness :
    (Tui.update toySpec toyTuiErr (Action.Custom 0)).2 =
      Except.error ⟨99⟩ ∧
    (Tui.update toySpec toyTuiErr (Action.Custom 0)).1.components =
      updatedRegistry toySpec (Action.Custom 0)
          [(ComponentName.TitleBar, 1)] ++
        (ComponentName.CoreWindow,
          (toySpec.update (Action.Custom 0) 99).1) ::
          [(ComponentName.StatusBar, 3)] :=
  update_error_aborts toySpec toyTuiErr (Action.Custom 0)
    [(ComponentName.TitleBar, 1)] [(ComponentName.StatusBar, 3)]
    ComponentName.CoreWindow 99 ⟨99⟩ rfl (by decide) rfl

/-- C8: for every input event (including none), `Tui::handle_events`
delivers the event only to the `CoreWindow` component: the call returns
exactly that component's `handle_events` result with only the
`CoreWindow`'s state replaced, and the observable state of every other
registered component is unchanged. -/
theorem handle_events_isolated {σ : Type} (C : ComponentSpec σ) (t : Tui σ)
    (event : Option Event) (s : σ)
    (h : lookupComp t.components ComponentName.CoreWindow = some s) :
    Tui.handle_events C t event =
      some (Tui.setComponents t
              (setComp t.components ComponentName.CoreWindow
                (C.handle_events event s).1),
            (C.handle_events event s).2) ∧
    ∀ n, n ≠ ComponentName.CoreWindow →
      lookupComp
          (setComp t.components ComponentName.CoreWindow
            (C.handle_events event s).1) n =
        lookupComp t.components n := by
  constructor
  · rcases hc : C.handle_events event s with ⟨s1, res⟩
    simp [Tui.handle_events, Tui.setComponents, h, hc]
  · intro n hn
    exact lookup_setComp_other ComponentName.CoreWindow n _
      (fun hEq => hn hEq.symm) t.components

theorem handle_events_isolated_witness :
    Tui.handle_events toySpec toyTui (some (Event.Key 5 0)) =
      some (Tui.setComponents toyTui
              (setComp toyTui.components ComponentName.CoreWindow
                (toySpec.handle_events (some (Event.Key 5 0)) 2).1),
            (toySpec.handle_events (some (Event.Key 5 0)) 2).2) ∧
    ∀ n, n ≠ ComponentName.CoreWindow →
      lookupComp
          (setComp toyTui.components ComponentName.CoreWindow
            (toySpec.handle_events (some (Event.Key 5 0)) 2).1) n =
        lookupComp toyTui.components n :=
  handle_events_isolated toySpec toyTui (some (Event.Key 5 0)) 2 rfl

/-- C9: the focus mutation of `Tui::update` happens before the broadcast:
when the try-fold over the components errors, the error is propagated to
the caller while the focus state already holds the new value — `some n`
after `FocusComponent(n)`, `none` after `UnfocusComponent` — so the focus
change survives the failed dispatch. -/
theorem focus_survives_failed_dispatch {σ : Type} (C : ComponentSpec σ)
    (t : Tui σ) (n : ComponentName) (e e1 : IOError)
    (hf : (tryFoldUpdate C (Action.FocusComponent n) t.components none).2 =
      Except.error e)
    (hu : (tryFoldUpdate C Action.UnfocusComponent t.components none).2 =
      Except.error e1) :
    ((Tui.update C t (Action.FocusComponent n)).2 = Except.error e ∧
     (Tui.update C t (Action.FocusComponent n)).1.focused = some n) ∧
    ((Tui.update C t Action.UnfocusComponent).2 = Except.error e1 ∧
     (Tui.update C t Action.UnfocusComponent).1.focused = none) := by
  rcases h1 : tryFoldUpdate C (Action.FocusComponent n) t.components none
    with ⟨c1, r1⟩
  rcases h2 : tryFoldUpdate C Action.UnfocusComponent t.components none
    with ⟨c2, r2⟩
  rw [h1] at hf
  rw [h2] at hu
  simp only at hf hu
  subst hf
  subst hu
  exact ⟨by simp [Tui.update, h1], by simp [Tui.update, h2]⟩

theorem focus_survives_failed_dispatch_witness :
    ((Tui.update toySpec toyTuiAllErr
        (Action.FocusComponent ComponentName.Prompt)).2 =
      Except.error ⟨99⟩ ∧
     (Tui.update toySpec toyTuiAllErr
        (Action.FocusComponent ComponentName.Prompt)).1.focused =
      some ComponentName.Prompt) ∧
    ((Tui.update toySpec toyTuiAllErr Action.UnfocusComponent).2 =
      Except.error ⟨99⟩ ∧
     (Tui.update toySpec toyTuiAllErr Action.UnfocusComponent).1.focused =
      none) :=
  focus_survives_failed_dispatch toySpec toyTuiAllErr ComponentName.Prompt
    ⟨99⟩ ⟨99⟩ rfl rfl

/-- C10: event routing is independent of the focus state: two shell
states with the same registry and configuration — so differing at most in
the `focused` field, including one being unfocused — route the same event
to the same component and return the same outcome: the same panic-or-not,
the same produced action or error, and the same resulting registry. -/
theorem handle_events_focus_independent {σ : Type} (C : ComponentSpec σ)
    (t1 t2 : Tui σ) (event : Option Event)
    (hc : t1.components = t2.components)
    (_hcfg : t1.app_config = t2.app_config) :
    (Tui.handle_events C t1 event).map (fun p => (p.1.components, p.2)) =
      (Tui.handle_events C t2 event).map (fun p => (p.1.components, p.2)) := by
  simp only [Tui.handle_events, hc]
  cases h : lookupComp t2.components ComponentName.CoreWindow with
  | none => simp
  | some s =>
    rcases hc1 : C.handle_events event s with ⟨s1, res⟩
    simp

theorem handle_events_focus_independent_witness :
    (Tui.handle_events toySpec toyTui (some Event.Unknown)).map
        (fun p => (p.1.components, p.2)) =
      (Tui.handle_events toySpec toyTuiFocused (some Event.Unknown)).map
        (fun p => (p.1.components, p.2)) :=
  handle_events_focus_independent toySpec toyTui toyTuiFocused
    (some Event.Unknown) rfl rfl

end Tgt
